import Mathlib

/-!
Shallow embedding of the ticket-extraction pipeline of the
`data-exporters` repository (two exporters: `linear_fetcher.py` and
`pylon_fetcher.py`).  Network transport is modelled as oracles: a list of
page responses consumed in arrival order for the pagination loops, and
per-call `Except`-valued functions for single requests, where
`Except.error` models a raised Python exception.  Python `dict` keys that
a literal never includes are modelled as an `Option` field that the
construction leaves at `none`; instants are integers counted in days, so
`timedelta(days := n)` is addition of `n`.
-/

set_option autoImplicit false

namespace DataExporters

/-- Python truthiness of an optional string (`None` and `""` are falsy),
as used by `if not cursor` / `if not issue_id` in both fetchers. -/
def strTruthy : Option String → Bool
  | none => false
  | some s => s != ""

/-- `issue.get("id")` followed by the `if not issue_id: continue` guard:
yields the identifier only when it is present and non-empty. -/
def idTruthy : Option String → Option String
  | none => none
  | some s => if s = "" then none else some s

/-! ## Pylon exporter: data model (`pylon_fetcher.py`) -/

/-- One raw issue dict as the Pylon pipeline reads it: only the keys the
fetcher logic touches (`id`, `state`, and the three candidate date
fields); a missing key is `none`. -/
structure PyIssue where
  id : Option String
  state : Option String
  created_at : Option String
  updated_at : Option String
  closed_at : Option String
  deriving Repr, DecidableEq

/-- The string mangling `filter_issues_by_date_and_state` applies before
parsing: `date_str = v.replace("Z", "+00:00")` then
`fromisoformat(date_str.replace("Z", ""))`. -/
def pyDateTransform (s : String) : String :=
  (s.replace "Z" "+00:00").replace "Z" ""

/-- One pass of the inner `for date_field in [...]` body: the field must
be present (`date_field in issue`) and truthy (`issue[date_field]`), and
the `try: datetime.fromisoformat ...` must succeed (`parse` returns
`some`); any failure falls through to the next field. -/
def tryField (parse : String → Option Int) : Option String → Option Int
  | none => none
  | some s => if s = "" then none else parse (pyDateTransform s)

/-- The first parseable date of an issue, trying `created_at`,
`updated_at`, `closed_at` in that order (the `break` on first success). -/
def firstDate (parse : String → Option Int) (i : PyIssue) : Option Int :=
  match tryField parse i.created_at with
  | some d => some d
  | none =>
    match tryField parse i.updated_at with
    | some d => some d
    | none => tryField parse i.closed_at

/-- The retention test of one loop iteration of
`filter_issues_by_date_and_state`: state must equal the target
(`issue.get("state") != state: continue`) and the first parseable date
must lie in `[start_date, end_date]`
(`if issue_date and start_date <= issue_date <= end_date`). -/
def keepIssue (parse : String → Option Int) (start_date end_date : Int)
    (state : String) (i : PyIssue) : Bool :=
  i.state == some state &&
    match firstDate parse i with
    | some d => decide (start_date ≤ d) && decide (d ≤ end_date)
    | none => false

/-- `PylonAPIClient.filter_issues_by_date_and_state`: the accumulator
loop appending exactly the issues that pass `keepIssue`. -/
def filter_issues_by_date_and_state (parse : String → Option Int)
    (issues : List PyIssue) (start_date end_date : Int)
    (state : String) : List PyIssue :=
  match issues with
  | [] => []
  | i :: rest =>
    if keepIssue parse start_date end_date state i then
      i :: filter_issues_by_date_and_state parse rest start_date end_date state
    else
      filter_issues_by_date_and_state parse rest start_date end_date state

/-! ## Pylon exporter: search pagination (`search_closed_issues_only`) -/

/-- One parsed response of `POST /issues/search`: the `data` list and
`meta.cursor` (absent key modelled as `none`). -/
structure PySearchResp (α : Type) where
  data : List α
  cursor : Option String
  deriving Repr, DecidableEq

/-- The `while True` loop of `search_closed_issues_only`, run against the
finite sequence of transport outcomes it will receive, one per request
(`Except.error` is a raised transport exception, which propagates).  The
loop breaks on an empty `data` list or a falsy `meta.cursor`, after
extending the accumulator. -/
def search_closed_issues_only {α : Type} :
    List (Except String (PySearchResp α)) → List α → Except String (List α)
  | [], acc => .ok acc
  | .error e :: _, _ => .error e
  | .ok r :: rest, acc =>
    if r.data.isEmpty then .ok acc
    else if strTruthy r.cursor then search_closed_issues_only rest (acc ++ r.data)
    else .ok (acc ++ r.data)

/-- Number of loop iterations `search_closed_issues_only` performs on a
given response sequence (each iteration issues exactly one request). -/
def pySearchIterations {α : Type} : List (Except String (PySearchResp α)) → Nat
  | [] => 0
  | .error _ :: _ => 1
  | .ok r :: rest =>
    if r.data.isEmpty then 1
    else if strTruthy r.cursor then 1 + pySearchIterations rest
    else 1

/-! ## Linear exporter: pagination (`fetch_closed_issues`,
`fetch_issue_comments`) -/

/-- One parsed page of the Linear issues query: `nodes` plus
`pageInfo.hasNextPage` / `pageInfo.endCursor`. -/
structure LinPage (α : Type) where
  nodes : List α
  hasNextPage : Bool
  endCursor : Option String
  deriving Repr, DecidableEq

/-- The `while True` loop of `LinearAPIClient.fetch_closed_issues` over
the finite sequence of transport outcomes (`Except.error` is a raised
`_execute_query` exception).  Breaks on empty `nodes`, continues only
when `hasNextPage` and a truthy `endCursor` are both present. -/
def fetch_closed_issues {α : Type} :
    List (Except String (LinPage α)) → List α → Except String (List α)
  | [], acc => .ok acc
  | .error e :: _, _ => .error e
  | .ok p :: rest, acc =>
    if p.nodes.isEmpty then .ok acc
    else if p.hasNextPage && strTruthy p.endCursor then
      fetch_closed_issues rest (acc ++ p.nodes)
    else .ok (acc ++ p.nodes)

/-- Number of loop iterations `fetch_closed_issues` performs. -/
def linFetchIterations {α : Type} : List (Except String (LinPage α)) → Nat
  | [] => 0
  | .error _ :: _ => 1
  | .ok p :: rest =>
    if p.nodes.isEmpty then 1
    else if p.hasNextPage && strTruthy p.endCursor then 1 + linFetchIterations rest
    else 1

/-- One Linear comment node; the fetcher only moves comment dicts around,
so the payload is kept opaque as its serialized form. -/
def LinComment : Type := String
deriving instance Repr, DecidableEq for LinComment

/-- One parsed response of the `FetchComments` query: whether
`data.get("issue", {})` was truthy, and the `comments` connection. -/
structure LinCommentsResp where
  issuePresent : Bool
  nodes : List LinComment
  hasNextPage : Bool
  endCursor : Option String
  deriving Repr, DecidableEq

/-- The `while True` loop of `LinearAPIClient.fetch_issue_comments` over
its transport outcomes: breaks (returning the accumulator) when the
`issue` object is falsy or `nodes` is empty, continues only on
`hasNextPage` with a truthy `endCursor`; a transport error propagates. -/
def fetch_issue_comments :
    List (Except String LinCommentsResp) → List LinComment →
      Except String (List LinComment)
  | [], acc => .ok acc
  | .error e :: _, _ => .error e
  | .ok r :: rest, acc =>
    if !r.issuePresent then .ok acc
    else if r.nodes.isEmpty then .ok acc
    else if r.hasNextPage && strTruthy r.endCursor then
      fetch_issue_comments rest (acc ++ r.nodes)
    else .ok (acc ++ r.nodes)

/-! ## Pylon exporter: fallback chunked scan -/

/-- The chunk boundaries the fallback `while current_end > start_date`
loop visits: each iteration fetches `(current_start, current_end)` with
`current_start = max(start_date, current_end - timedelta(days=30))` and
then sets `current_end = current_start`.  Structured on a fuel bound so
the definition is kernel-executable; `(current_end - start_date).toNat`
iterations always suffice (each step shrinks the window by at least one
day). -/
def chunkBoundsGo (start_date : Int) : Nat → Int → List (Int × Int)
  | 0, _ => []
  | fuel + 1, current_end =>
    if current_end > start_date then
      let current_start := max start_date (current_end - 30)
      (current_start, current_end) :: chunkBoundsGo start_date fuel current_start
    else []

/-- The chunk windows of the fallback scan for a given `[start_date,
current_end]` range. -/
def chunkBounds (start_date current_end : Int) : List (Int × Int) :=
  chunkBoundsGo start_date (current_end - start_date).toNat current_end

/-- One chunk iteration's contribution to `filtered_issues`: on success,
the list comprehension keeping `issue.get("state") == "closed"` (and
nothing else — no date test); on a chunk error, the `except` swallows it
and contributes nothing. -/
def chunkContribution
    (fetchChunk : Int → Int → Except String (List PyIssue))
    (b : Int × Int) : List PyIssue :=
  match fetchChunk b.1 b.2 with
  | .ok chunk_issues => chunk_issues.filter (fun i => i.state == some "closed")
  | .error _ => []

/-- The whole fallback loop of `fetch_all_closed_tickets` (the `except`
branch of the primary strategy), fuelled like `chunkBoundsGo`. -/
def chunkScanGo (fetchChunk : Int → Int → Except String (List PyIssue))
    (start_date : Int) : Nat → Int → List PyIssue
  | 0, _ => []
  | fuel + 1, current_end =>
    if current_end > start_date then
      let current_start := max start_date (current_end - 30)
      chunkContribution fetchChunk (current_start, current_end) ++
        chunkScanGo fetchChunk start_date fuel current_start
    else []

/-- The fallback chunked scan over `[start_date, current_end]`. -/
def chunkScan (fetchChunk : Int → Int → Except String (List PyIssue))
    (start_date current_end : Int) : List PyIssue :=
  chunkScanGo fetchChunk start_date (current_end - start_date).toNat current_end

/-! ## Pylon exporter: per-ticket assembly and orchestrator -/

/-- A Pylon message payload, opaque to the fetcher. -/
def PyMsg : Type := String
deriving instance Repr, DecidableEq for PyMsg

/-- `PylonAPIClient.get_issue_messages` applied to one transport outcome:
a raised request exception propagates; a response with
`status_code != 200` is downgraded to the empty list (printing a warning
only); a 200 response yields its `data`. -/
def get_issue_messages (resp : Except String (Nat × List PyMsg)) :
    Except String (List PyMsg) :=
  match resp with
  | .error e => .error e
  | .ok (status_code, data) =>
    if status_code ≠ 200 then .ok [] else .ok data

/-- One `complete_ticket` dict of the Pylon per-ticket loop.  The dict
literal has exactly the four keys below and never an `"error"` key; the
absent key is modelled as the `error` field being `none` always. -/
structure PyRecord where
  issue_summary : PyIssue
  issue_details : String
  messages : List PyMsg
  total_messages : Nat
  error : Option String
  deriving Repr, DecidableEq

/-- The transport oracles one Pylon run consumes, each `Except.error`
standing for a raised exception of that call. -/
structure PyOracles where
  /-- outcome of `search_closed_issues_only()` (primary strategy) -/
  primary : Except String (List PyIssue)
  /-- outcome of `get_issues_in_range(start, end)` per chunk window -/
  fetchChunk : Int → Int → Except String (List PyIssue)
  /-- outcome of `get_issue_details(issue_id)` -/
  details : String → Except String String
  /-- raw transport outcome behind `get_issue_messages(issue_id)`:
  a raised exception, or `(status_code, data)` -/
  messages : String → Except String (Nat × List PyMsg)
  /-- `datetime.fromisoformat` on the mangled date string -/
  parse : String → Option Int

/-- The Pylon `for i, issue in enumerate(filtered_issues, 1)` loop: a
falsy `id` is skipped by `continue`; then `get_issue_details` and
`get_issue_messages` run inside a `try` whose `except` prints and does
`continue` — an exception drops the ticket, appending no record. -/
def pyProcessTickets (O : PyOracles) : List PyIssue → List PyRecord
  | [] => []
  | issue :: rest =>
    match idTruthy issue.id with
    | none => pyProcessTickets O rest
    | some issue_id =>
      match O.details issue_id, get_issue_messages (O.messages issue_id) with
      | .ok detailed_issue, .ok messages =>
        { issue_summary := issue
          issue_details := detailed_issue
          messages := messages
          total_messages := messages.length
          error := none } :: pyProcessTickets O rest
      | _, _ => pyProcessTickets O rest

/-- The Pylon `result["metadata"]` dict.  Its literal holds exactly
`total_tickets`, `date_range`, `fetched_at`, `days_back`; it has no
`"source"` key, modelled as `source := none` (the Linear metadata dict
does carry `"source": "linear"`). -/
structure Metadata where
  total_tickets : Nat
  date_range : Int × Int
  fetched_at : Int
  days_back : Int
  source : Option String
  deriving Repr, DecidableEq

/-- The Pylon `result` dict of `fetch_all_closed_tickets`. -/
structure PyResult where
  metadata : Metadata
  tickets : List PyRecord
  deriving Repr, DecidableEq

/-- `PylonAPIClient.fetch_all_closed_tickets(days_back)`: window from
`now`; the primary strategy's result is date-and-state filtered, and any
exception from it selects the fallback chunked scan; then the per-ticket
loop and the metadata block.  `fetched_at` is the instant
`datetime.now()` returns at metadata-construction time.  Every branch
returns a result dict: nothing after the primary `try` can raise. -/
def py_fetch_all_closed_tickets (O : PyOracles)
    (now days_back fetched_at : Int) : PyResult :=
  let end_date := now
  let start_date := end_date - days_back
  let filtered_issues :=
    match O.primary with
    | .ok all_closed_issues =>
      filter_issues_by_date_and_state O.parse all_closed_issues
        start_date end_date "closed"
    | .error _ => chunkScan O.fetchChunk start_date end_date
  let all_tickets := pyProcessTickets O filtered_issues
  { metadata :=
      { total_tickets := all_tickets.length
        date_range := (start_date, end_date)
        fetched_at := fetched_at
        days_back := days_back
        source := none }
    tickets := all_tickets }

/-! ## Linear exporter: per-ticket assembly and orchestrator -/

/-- One Linear issue node as the orchestrator reads it: only `id` is
inspected (`identifier` only feeds a progress print); the rest of the
node is carried through opaquely. -/
structure LinIssue where
  id : Option String
  identifier : Option String
  payload : String
  deriving Repr, DecidableEq

/-- One `complete_ticket` dict of the Linear per-ticket loop: the success
branch has no `"error"` key (`error := none`); the `except` branch builds
`{"issue": issue, "comments": [], "total_comments": 0, "error": str(e)}`. -/
structure LinRecord where
  issue : LinIssue
  comments : List LinComment
  total_comments : Nat
  error : Option String
  deriving Repr, DecidableEq

/-- The transport oracles one Linear run consumes. -/
structure LinOracles where
  /-- outcome of `fetch_closed_issues(days_back, team_id)` (raises on any
  page error, per §fetch_closed_issues) -/
  listFetch : Except String (List LinIssue)
  /-- the sequence of `FetchComments` transport outcomes for one issue
  id, consumed by the `fetch_issue_comments` pagination loop -/
  commentPages : String → List (Except String LinCommentsResp)

/-- The Linear `for i, issue in enumerate(all_issues, 1)` loop: a falsy
`id` is skipped by `continue`; `fetch_issue_comments` runs inside a
`try`; on success a record with the comments is appended, and the
`except` branch still appends the issue with empty comments and the
error string. -/
def linProcessTickets (O : LinOracles) : List LinIssue → List LinRecord
  | [] => []
  | issue :: rest =>
    match idTruthy issue.id with
    | none => linProcessTickets O rest
    | some issue_id =>
      match fetch_issue_comments (O.commentPages issue_id) [] with
      | .ok comments =>
        { issue := issue
          comments := comments
          total_comments := comments.length
          error := none } :: linProcessTickets O rest
      | .error e =>
        { issue := issue
          comments := []
          total_comments := 0
          error := some e } :: linProcessTickets O rest

/-- The Linear `result` dict of `fetch_all_closed_tickets`. -/
structure LinResult where
  metadata : Metadata
  tickets : List LinRecord
  deriving Repr, DecidableEq

/-- `LinearAPIClient.fetch_all_closed_tickets(days_back, team_id)`: the
issue-list fetch is NOT wrapped in a `try`, so its exception propagates
and no result dict is built; otherwise the per-ticket loop runs and the
metadata dict carries `"source": "linear"`. -/
def lin_fetch_all_closed_tickets (O : LinOracles)
    (now days_back fetched_at : Int) : Except String LinResult :=
  let end_date := now
  let start_date := end_date - days_back
  match O.listFetch with
  | .error e => .error e
  | .ok all_issues =>
    let all_tickets := linProcessTickets O all_issues
    .ok
      { metadata :=
          { total_tickets := all_tickets.length
            date_range := (start_date, end_date)
            fetched_at := fetched_at
            days_back := days_back
            source := some "linear" }
        tickets := all_tickets }

/-! ## Pylon client construction (`PylonAPIClient.__init__`) -/

/-- The state `PylonAPIClient.__init__` leaves on the client. -/
structure PylonAPIClient where
  api_token : String
  base_url : String
  headers : List (String × String)
  deriving Repr, DecidableEq

/-- `PylonAPIClient.__init__(api_token)`: stores the token, and builds
the header dict with `"Authorization": f"Bearer <TOKEN>"` — an f-string
without any placeholder, hence the literal text `Bearer <TOKEN>`. -/
def PylonAPIClient.init (api_token : String) : PylonAPIClient :=
  { api_token := api_token
    base_url := "https://api.usepylon.com"
    headers :=
      [("Authorization", "Bearer <TOKEN>"),
       ("Content-Type", "application/json"),
       ("Accept", "application/json")] }

/-! ## Helper lemmas -/

/-- The accumulating filter loop is `List.filter keepIssue`. -/
theorem filter_issues_eq_filter (parse : String → Option Int)
    (issues : List PyIssue) (s e : Int) (st : String) :
    filter_issues_by_date_and_state parse issues s e st =
      issues.filter (keepIssue parse s e st) := by
  induction issues with
  | nil => rfl
  | cons i rest ih =>
    simp only [filter_issues_by_date_and_state, List.filter_cons]
    by_cases h : keepIssue parse s e st i = true
    · simp [h, ih]
    · simp [h, ih]

/-- A block of ok pages that all have items, `hasNextPage` and a truthy
cursor is consumed whole by the Linear pagination loop, which then
continues with the remaining responses. -/
theorem fetch_closed_issues_consume {α : Type} (ps : List (LinPage α))
    (rest : List (Except String (LinPage α))) (acc : List α)
    (h : ∀ p ∈ ps, p.nodes ≠ [] ∧ (p.hasNextPage && strTruthy p.endCursor) = true) :
    fetch_closed_issues (ps.map Except.ok ++ rest) acc =
      fetch_closed_issues rest (acc ++ (ps.map LinPage.nodes).flatten) := by
  induction ps generalizing acc with
  | nil => simp
  | cons p ps ih =>
    have hp := h p (List.mem_cons_self p ps)
    have hps : ∀ q ∈ ps, q.nodes ≠ [] ∧ (q.hasNextPage && strTruthy q.endCursor) = true :=
      fun q hq => h q (List.mem_cons_of_mem p hq)
    simp only [List.map_cons, List.cons_append, fetch_closed_issues, List.append_eq]
    rw [if_neg (by simpa using hp.1), if_pos hp.2, ih (acc ++ p.nodes) hps]
    simp

/-- Same consumption lemma for the Pylon search pagination loop. -/
theorem search_closed_consume {α : Type} (ps : List (PySearchResp α))
    (rest : List (Except String (PySearchResp α))) (acc : List α)
    (h : ∀ p ∈ ps, p.data ≠ [] ∧ strTruthy p.cursor = true) :
    search_closed_issues_only (ps.map Except.ok ++ rest) acc =
      search_closed_issues_only rest (acc ++ (ps.map PySearchResp.data).flatten) := by
  induction ps generalizing acc with
  | nil => simp
  | cons p ps ih =>
    have hp := h p (List.mem_cons_self p ps)
    have hps : ∀ q ∈ ps, q.data ≠ [] ∧ strTruthy q.cursor = true :=
      fun q hq => h q (List.mem_cons_of_mem p hq)
    simp only [List.map_cons, List.cons_append, search_closed_issues_only, List.append_eq]
    rw [if_neg (by simpa using hp.1), if_pos hp.2, ih (acc ++ p.data) hps]
    simp

/-- The Linear pagination loop performs at most one iteration per
available transport response. -/
theorem linFetchIterations_le {α : Type}
    (rs : List (Except String (LinPage α))) :
    linFetchIterations rs ≤ rs.length := by
  induction rs with
  | nil => simp [linFetchIterations]
  | cons r rest ih =>
    cases r with
    | error e => simp [linFetchIterations]
    | ok p =>
      simp only [linFetchIterations, List.length_cons]
      by_cases h1 : p.nodes.isEmpty
      · simp [h1]
      · by_cases h2 : (p.hasNextPage && strTruthy p.endCursor) = true
        · simp [h1, h2]; omega
        · simp [h1, h2]

/-- The Pylon search loop performs at most one iteration per available
transport response. -/
theorem pySearchIterations_le {α : Type}
    (rs : List (Except String (PySearchResp α))) :
    pySearchIterations rs ≤ rs.length := by
  induction rs with
  | nil => simp [pySearchIterations]
  | cons r rest ih =>
    cases r with
    | error e => simp [pySearchIterations]
    | ok p =>
      simp only [pySearchIterations, List.length_cons]
      by_cases h1 : p.data.isEmpty
      · simp [h1]
      · by_cases h2 : strTruthy p.cursor = true
        · simp [h1, h2]; omega
        · simp [h1, h2]

/-- The fallback loop is the concatenation of the per-chunk
contributions over the chunk windows it visits. -/
theorem chunkScanGo_eq_flatMap (f : Int → Int → Except String (List PyIssue))
    (s : Int) (fuel : Nat) (e : Int) :
    chunkScanGo f s fuel e =
      (chunkBoundsGo s fuel e).flatMap (chunkContribution f) := by
  induction fuel generalizing e with
  | zero => rfl
  | succ n ih =>
    simp only [chunkScanGo, chunkBoundsGo]
    by_cases h : e > s
    · simp [h, ih]
    · simp [h]

/-- Every chunk window lies inside the requested window, is nonempty,
and spans at most 30 days. -/
theorem chunkBoundsGo_mem (s : Int) (fuel : Nat) (e : Int) :
    ∀ b ∈ chunkBoundsGo s fuel e,
      s ≤ b.1 ∧ b.1 < b.2 ∧ b.2 ≤ e ∧ b.2 - b.1 ≤ 30 := by
  induction fuel generalizing e with
  | zero => intro b hb; simp [chunkBoundsGo] at hb
  | succ n ih =>
    intro b hb
    simp only [chunkBoundsGo] at hb
    by_cases h : e > s
    · rw [if_pos h] at hb
      rcases List.mem_cons.mp hb with h1 | h2
      · subst h1; refine ⟨le_max_left _ _, ?_, le_refl _, ?_⟩ <;> omega
      · have := ih (max s (e - 30)) b h2
        omega
    · rw [if_neg h] at hb; simp at hb

/-- Every instant of a nonempty requested window is covered by some
chunk window (given enough fuel, as `chunkBounds` supplies). -/
theorem chunkBoundsGo_cover (s : Int) (fuel : Nat) :
    ∀ e t, (e - s).toNat ≤ fuel → s ≤ t → t ≤ e → s < e →
      ∃ b ∈ chunkBoundsGo s fuel e, b.1 ≤ t ∧ t ≤ b.2 := by
  induction fuel with
  | zero => intro e t hf ht1 ht2 hse; omega
  | succ n ih =>
    intro e t hf ht1 ht2 hse
    simp only [chunkBoundsGo, if_pos hse]
    by_cases hcs : max s (e - 30) ≤ t
    · exact ⟨(max s (e - 30), e), List.mem_cons_self _ _, hcs, ht2⟩
    · obtain ⟨b, hb, h1, h2⟩ :=
        ih (max s (e - 30)) t (by omega) ht1 (by omega) (by omega)
      exact ⟨b, List.mem_cons_of_mem _ hb, h1, h2⟩

/-- The first chunk window the loop emits ends at the current
`current_end`. -/
theorem chunkBoundsGo_head (s : Int) (fuel : Nat) (e : Int) (b : Int × Int)
    (l : List (Int × Int)) (h : chunkBoundsGo s fuel e = b :: l) : b.2 = e := by
  cases fuel with
  | zero => simp [chunkBoundsGo] at h
  | succ n =>
    simp only [chunkBoundsGo] at h
    by_cases hc : e > s
    · rw [if_pos hc] at h; cases h; rfl
    · rw [if_neg hc] at h; cases h

/-- Consecutive chunk windows abut: each next window ends exactly where
the previous one starts. -/
theorem chunkBoundsGo_chain (s : Int) (fuel : Nat) (e : Int) :
    List.Chain' (fun b c => c.2 = b.1) (chunkBoundsGo s fuel e) := by
  induction fuel generalizing e with
  | zero => simp [chunkBoundsGo]
  | succ n ih =>
    simp only [chunkBoundsGo]
    by_cases hc : e > s
    · rw [if_pos hc]
      refine List.chain'_cons'.mpr ⟨?_, ih _⟩
      intro c hc'
      cases hgo : chunkBoundsGo s n (max s (e - 30)) with
      | nil => rw [hgo] at hc'; simp at hc'
      | cons b' l' =>
        rw [hgo] at hc'
        simp at hc'
        subst hc'
        exact chunkBoundsGo_head s n _ _ _ hgo
    · rw [if_neg hc]; simp

/-- An issue with a falsy `id` is skipped by the Linear per-ticket loop:
removing it from the input changes nothing in the output. -/
theorem linProcess_skip (O : LinOracles) (pre post : List LinIssue)
    (bad : LinIssue) (hbad : idTruthy bad.id = none) :
    linProcessTickets O (pre ++ bad :: post) =
      linProcessTickets O (pre ++ post) := by
  induction pre with
  | nil => simp [linProcessTickets, hbad]
  | cons i pre ih =>
    cases h : idTruthy i.id with
    | none => simpa [linProcessTickets, h] using ih
    | some iid =>
      cases hf : fetch_issue_comments (O.commentPages iid) [] with
      | ok cs => simp [linProcessTickets, h, hf, ih]
      | error e => simp [linProcessTickets, h, hf, ih]

/-- When every issue has a truthy `id`, the Linear per-ticket loop emits
one record per issue (both the success and the failure branch append). -/
theorem linProcess_length (O : LinOracles) (issues : List LinIssue)
    (h : ∀ i ∈ issues, (idTruthy i.id).isSome) :
    (linProcessTickets O issues).length = issues.length := by
  induction issues with
  | nil => rfl
  | cons i rest ih =>
    have hi := h i (List.mem_cons_self i rest)
    have hrest := fun j hj => h j (List.mem_cons_of_mem i hj)
    cases hid : idTruthy i.id with
    | none => rw [hid] at hi; simp at hi
    | some iid =>
      cases hf : fetch_issue_comments (O.commentPages iid) [] with
      | ok cs => simp [linProcessTickets, hid, hf, ih hrest]
      | error e => simp [linProcessTickets, hid, hf, ih hrest]

/-- An issue with a falsy `id` is skipped by the Pylon per-ticket loop. -/
theorem pyProcess_skip (O : PyOracles) (pre post : List PyIssue)
    (bad : PyIssue) (hbad : idTruthy bad.id = none) :
    pyProcessTickets O (pre ++ bad :: post) =
      pyProcessTickets O (pre ++ post) := by
  induction pre with
  | nil => simp [pyProcessTickets, hbad]
  | cons i pre ih =>
    cases h : idTruthy i.id with
    | none => simpa [pyProcessTickets, h] using ih
    | some iid =>
      cases hd : O.details iid with
      | ok d =>
        cases hm : get_issue_messages (O.messages iid) with
        | ok ms => simp [pyProcessTickets, h, hd, hm, ih]
        | error e => simp [pyProcessTickets, h, hd, hm, ih]
      | error e =>
        cases hm : get_issue_messages (O.messages iid) with
        | ok ms => simp [pyProcessTickets, h, hd, hm, ih]
        | error e2 => simp [pyProcessTickets, h, hd, hm, ih]

/-- When every issue has a truthy `id` and both nested fetches succeed
for it, the Pylon per-ticket loop emits one record per issue. -/
theorem pyProcess_length (O : PyOracles) (issues : List PyIssue)
    (h : ∀ i ∈ issues, ∃ iid, idTruthy i.id = some iid ∧
      (∃ d, O.details iid = .ok d) ∧
      (∃ ms, get_issue_messages (O.messages iid) = .ok ms)) :
    (pyProcessTickets O issues).length = issues.length := by
  induction issues with
  | nil => rfl
  | cons i rest ih =>
    obtain ⟨iid, hid, ⟨d, hd⟩, ⟨ms, hm⟩⟩ := h i (List.mem_cons_self i rest)
    have hrest := fun j hj => h j (List.mem_cons_of_mem i hj)
    simp [pyProcessTickets, hid, hd, hm, ih hrest]

/-- A block of ok responses that all have a truthy `issue`, items and
`hasNextPage` with a truthy cursor is consumed whole by the Linear
comments pagination loop. -/
theorem fetch_issue_comments_consume (ps : List LinCommentsResp)
    (rest : List (Except String LinCommentsResp)) (acc : List LinComment)
    (h : ∀ p ∈ ps, p.issuePresent = true ∧ p.nodes ≠ [] ∧
      (p.hasNextPage && strTruthy p.endCursor) = true) :
    fetch_issue_comments (ps.map Except.ok ++ rest) acc =
      fetch_issue_comments rest (acc ++ (ps.map LinCommentsResp.nodes).flatten) := by
  induction ps generalizing acc with
  | nil => simp
  | cons p ps ih =>
    have hp := h p (List.mem_cons_self p ps)
    have hps : ∀ q ∈ ps, q.issuePresent = true ∧ q.nodes ≠ [] ∧
        (q.hasNextPage && strTruthy q.endCursor) = true :=
      fun q hq => h q (List.mem_cons_of_mem p hq)
    simp only [List.map_cons, List.cons_append, fetch_issue_comments,
      List.append_eq]
    rw [if_neg (by simp [hp.1]), if_neg (by simpa using hp.2.1),
      if_pos hp.2.2, ih (acc ++ p.nodes) hps]
    simp

/-! ## Claims -/

/-- C4: the request headers `PylonAPIClient.__init__` builds are
identical for every supplied `api_token`: the `Authorization` entry is
the literal `Bearer <TOKEN>` (the f-string has no placeholder), so two
clients constructed with different tokens carry byte-identical headers
and the token never reaches them. -/
theorem C4_headers_token_independent :
    (∀ t1 t2 : String,
      (PylonAPIClient.init t1).headers = (PylonAPIClient.init t2).headers) ∧
    (∀ t : String,
      ((PylonAPIClient.init t).headers).lookup "Authorization" =
        some "Bearer <TOKEN>") :=
  ⟨fun _ _ => rfl, fun _ => rfl⟩

/-- C7: `filter_issues_by_date_and_state` retains an issue iff its state
equals the target and its first parseable date — trying `created_at`,
`updated_at`, `closed_at` in that priority order — lies inside
`[start_date, end_date]`. -/
theorem C7_filter_retention (parse : String → Option Int)
    (issues : List PyIssue) (s e : Int) (st : String) :
    (∀ i, i ∈ filter_issues_by_date_and_state parse issues s e st ↔
      (i ∈ issues ∧ i.state = some st ∧
        ∃ d, firstDate parse i = some d ∧ s ≤ d ∧ d ≤ e)) ∧
    (∀ i d, tryField parse i.created_at = some d →
      firstDate parse i = some d) ∧
    (∀ i d, tryField parse i.created_at = none →
      tryField parse i.updated_at = some d → firstDate parse i = some d) ∧
    (∀ i, tryField parse i.created_at = none →
      tryField parse i.updated_at = none →
      firstDate parse i = tryField parse i.closed_at) := by
  refine ⟨?_, ?_, ?_, ?_⟩
  · intro i
    rw [filter_issues_eq_filter, List.mem_filter]
    constructor
    · rintro ⟨hm, hk⟩
      refine ⟨hm, ?_⟩
      unfold keepIssue at hk
      cases hd : firstDate parse i with
      | none => rw [hd] at hk; simp at hk
      | some d =>
        rw [hd] at hk
        simp at hk
        exact ⟨hk.1, d, rfl, hk.2.1, hk.2.2⟩
    · rintro ⟨hm, hst, d, hd, h1, h2⟩
      refine ⟨hm, ?_⟩
      unfold keepIssue
      rw [hd]
      simp [hst, h1, h2]
  · intro i d h
    unfold firstDate
    rw [h]
  · intro i d h1 h2
    unfold firstDate
    rw [h1, h2]
  · intro i h1 h2
    unfold firstDate
    rw [h1, h2]

/-- Witness for C7 at a concrete input: an issue whose `created_at`
parses to 5 inside `[0, 10]` is retained; one with a different state is
not among the filtered output. -/
theorem C7_filter_retention_witness :
    (⟨some "a", some "closed", some "2024", none, none⟩ : PyIssue) ∈
      filter_issues_by_date_and_state (fun _ => some 5)
        [⟨some "a", some "closed", some "2024", none, none⟩,
         ⟨some "b", some "open", some "2024", none, none⟩] 0 10 "closed" :=
  ((C7_filter_retention (fun _ => some 5)
      [⟨some "a", some "closed", some "2024", none, none⟩,
       ⟨some "b", some "open", some "2024", none, none⟩] 0 10 "closed").1
    ⟨some "a", some "closed", some "2024", none, none⟩).mpr
    ⟨by decide, by decide, 5, by decide, by decide, by decide⟩

/-- C6: each pagination loop performs at most one iteration per
transport response (termination in the number of pages), and a repeated
cursor is no stopping condition: any block of pages sharing one and the
same non-empty cursor, with items and a next-page signal, is consumed
whole and the loop moves on to the remaining responses. -/
theorem C6_pagination_termination :
    (∀ (α : Type) (rs : List (Except String (LinPage α))),
      linFetchIterations rs ≤ rs.length) ∧
    (∀ (α : Type) (rs : List (Except String (PySearchResp α))),
      pySearchIterations rs ≤ rs.length) ∧
    (∀ (α : Type) (c : String) (ps : List (LinPage α))
      (rest : List (Except String (LinPage α))) (acc : List α),
      (∀ p ∈ ps, p.nodes ≠ [] ∧ p.hasNextPage = true ∧ p.endCursor = some c) →
      c ≠ "" →
      fetch_closed_issues (ps.map Except.ok ++ rest) acc =
        fetch_closed_issues rest (acc ++ (ps.map LinPage.nodes).flatten)) ∧
    (∀ (α : Type) (c : String) (ps : List (PySearchResp α))
      (rest : List (Except String (PySearchResp α))) (acc : List α),
      (∀ p ∈ ps, p.data ≠ [] ∧ p.cursor = some c) → c ≠ "" →
      search_closed_issues_only (ps.map Except.ok ++ rest) acc =
        search_closed_issues_only rest
          (acc ++ (ps.map PySearchResp.data).flatten)) := by
  refine ⟨fun α rs => linFetchIterations_le rs,
          fun α rs => pySearchIterations_le rs, ?_, ?_⟩
  · intro α c ps rest acc h hc
    refine fetch_closed_issues_consume ps rest acc (fun p hp => ?_)
    obtain ⟨h1, h2, h3⟩ := h p hp
    exact ⟨h1, by simp [h2, h3, strTruthy, hc]⟩
  · intro α c ps rest acc h hc
    refine search_closed_consume ps rest acc (fun p hp => ?_)
    obtain ⟨h1, h2⟩ := h p hp
    exact ⟨h1, by simp [h2, strTruthy, hc]⟩

/-- Witness for C6 at a concrete input: two pages carrying the very same
cursor `"x"` are both consumed, after which the loop stops only because
the third page reports `hasNextPage = false`. -/
theorem C6_pagination_termination_witness :
    fetch_closed_issues
      (([⟨[1], true, some "x"⟩, ⟨[2], true, some "x"⟩] :
          List (LinPage Nat)).map Except.ok ++
        [Except.ok (⟨[3], false, some "x"⟩ : LinPage Nat)]) [] =
      fetch_closed_issues [Except.ok (⟨[3], false, some "x"⟩ : LinPage Nat)]
        ([] ++ ([[1], [2]] : List (List Nat)).flatten) :=
  C6_pagination_termination.2.2.1 Nat "x"
    [⟨[1], true, some "x"⟩, ⟨[2], true, some "x"⟩]
    [Except.ok ⟨[3], false, some "x"⟩] [] (by decide) (by decide)

/-- C8: a page with zero items stops the pagination loop even when the
response still signals a next page; the items accumulated from the
earlier pages are returned, with no error. -/
theorem C8_empty_page_stops :
    (∀ (α : Type) (ps : List (LinPage α)) (ep : LinPage α)
      (rest : List (Except String (LinPage α))) (acc : List α),
      (∀ p ∈ ps, p.nodes ≠ [] ∧ (p.hasNextPage && strTruthy p.endCursor) = true) →
      ep.nodes = [] →
      fetch_closed_issues (ps.map Except.ok ++ Except.ok ep :: rest) acc =
        .ok (acc ++ (ps.map LinPage.nodes).flatten)) ∧
    (∀ (α : Type) (ps : List (PySearchResp α)) (ep : PySearchResp α)
      (rest : List (Except String (PySearchResp α))) (acc : List α),
      (∀ p ∈ ps, p.data ≠ [] ∧ strTruthy p.cursor = true) → ep.data = [] →
      search_closed_issues_only (ps.map Except.ok ++ Except.ok ep :: rest) acc =
        .ok (acc ++ (ps.map PySearchResp.data).flatten)) := by
  constructor
  · intro α ps ep rest acc h he
    rw [fetch_closed_issues_consume ps (Except.ok ep :: rest) acc h]
    simp [fetch_closed_issues, he]
  · intro α ps ep rest acc h he
    rw [search_closed_consume ps (Except.ok ep :: rest) acc h]
    simp [search_closed_issues_only, he]

/-- Witness for C8 at a concrete input: one full page, then an empty
page that still claims `hasNextPage = true` and a live cursor; the loop
returns the first page's items and never touches the poisoned rest. -/
theorem C8_empty_page_stops_witness :
    fetch_closed_issues
      (([⟨[7, 8], true, some "c"⟩] : List (LinPage Nat)).map Except.ok ++
        Except.ok (⟨[], true, some "c"⟩ : LinPage Nat) ::
          [Except.error "never requested"]) [] =
      .ok ([] ++ ([[7, 8]] : List (List Nat)).flatten) :=
  C8_empty_page_stops.1 Nat [⟨[7, 8], true, some "c"⟩] ⟨[], true, some "c"⟩
    [Except.error "never requested"] [] (by decide) (by decide)

/-- C10: an item lacking the mandatory `id` is silently skipped by both
per-ticket loops — the output equals the run on the list without that
item (so no record corresponds to it and no error is recorded for the
exclusion) — and, when every other item carries a truthy `id`, the
Linear output is exactly one record shorter than the input list. -/
theorem C10_missing_id_skipped :
    (∀ (O : LinOracles) (pre post : List LinIssue) (bad : LinIssue),
      bad.id = none →
      linProcessTickets O (pre ++ bad :: post) =
        linProcessTickets O (pre ++ post)) ∧
    (∀ (O : PyOracles) (pre post : List PyIssue) (bad : PyIssue),
      bad.id = none →
      pyProcessTickets O (pre ++ bad :: post) =
        pyProcessTickets O (pre ++ post)) ∧
    (∀ (O : LinOracles) (pre post : List LinIssue) (bad : LinIssue),
      bad.id = none →
      (∀ i ∈ pre ++ post, (idTruthy i.id).isSome) →
      (linProcessTickets O (pre ++ bad :: post)).length + 1 =
        (pre ++ bad :: post).length) := by
  refine ⟨?_, ?_, ?_⟩
  · intro O pre post bad hbad
    exact linProcess_skip O pre post bad (by simp [idTruthy, hbad])
  · intro O pre post bad hbad
    exact pyProcess_skip O pre post bad (by simp [idTruthy, hbad])
  · intro O pre post bad hbad h
    rw [linProcess_skip O pre post bad (by simp [idTruthy, hbad]),
      linProcess_length O (pre ++ post) h]
    simp
    omega

/-- Witness for C10 at a concrete input: a two-item list whose second
item has no `id` yields exactly the one record of the first item. -/
theorem C10_missing_id_skipped_witness :
    (linProcessTickets
        { listFetch := .ok [], commentPages := fun _ => [] }
        (([⟨some "a", some "A-1", "p"⟩] : List LinIssue) ++
          (⟨none, some "A-2", "q"⟩ : LinIssue) :: [])).length + 1 =
      (([⟨some "a", some "A-1", "p"⟩] : List LinIssue) ++
        (⟨none, some "A-2", "q"⟩ : LinIssue) :: []).length :=
  C10_missing_id_skipped.2.2
    { listFetch := .ok [], commentPages := fun _ => [] }
    [⟨some "a", some "A-1", "p"⟩] [] ⟨none, some "A-2", "q"⟩ rfl
    (by decide)

/-- C1 counterexample: a Pylon run over one in-window closed ticket
`t1` whose conversation fetch raises.  The claim demands a TicketRecord
for `t1` with empty conversation and a failure marker; instead the
`except` branch of the per-ticket loop does `continue` and the output
contains no record at all — the ticket is dropped. -/
theorem C1_counterexample :
    (py_fetch_all_closed_tickets
      { primary := .ok [⟨some "t1", some "closed", some "d", none, none⟩]
        fetchChunk := fun _ _ => .error "unused"
        details := fun _ => .ok "D"
        messages := fun _ => .error "boom"
        parse := fun _ => some 50 }
      100 60 100).tickets = [] := by decide

/-- C1 amended: in the Linear exporter a conversation-fetch error is
caught and the ticket is kept as a record with empty comments, count 0
and the error string, the loop continuing with the rest; in the Pylon
exporter the per-ticket error is also caught and the run continues, but
the ticket is skipped and no record is emitted for it. -/
theorem C1_error_isolation :
    (∀ (O : LinOracles) (issue : LinIssue) (rest : List LinIssue)
      (iid e : String),
      idTruthy issue.id = some iid →
      fetch_issue_comments (O.commentPages iid) [] = .error e →
      linProcessTickets O (issue :: rest) =
        { issue := issue, comments := [], total_comments := 0,
          error := some e } :: linProcessTickets O rest) ∧
    (∀ (O : PyOracles) (issue : PyIssue) (rest : List PyIssue)
      (iid : String),
      idTruthy issue.id = some iid →
      ((∃ e, O.details iid = .error e) ∨
        (∃ e, get_issue_messages (O.messages iid) = .error e)) →
      pyProcessTickets O (issue :: rest) = pyProcessTickets O rest) := by
  constructor
  · intro O issue rest iid e hid hf
    simp [linProcessTickets, hid, hf]
  · intro O issue rest iid hid herr
    rcases herr with ⟨e, he⟩ | ⟨e, he⟩
    · cases hm : get_issue_messages (O.messages iid) with
      | ok ms => simp [pyProcessTickets, hid, he, hm]
      | error e2 => simp [pyProcessTickets, hid, he, hm]
    · cases hd : O.details iid with
      | ok d => simp [pyProcessTickets, hid, he, hd]
      | error e2 => simp [pyProcessTickets, hid, he, hd]

/-- Witness for the amended C1 at a concrete input: the Linear loop
turns a raising comments fetch into a marked record and keeps going. -/
theorem C1_error_isolation_witness :
    linProcessTickets
        { listFetch := .ok [],
          commentPages := fun _ => [Except.error "timeout"] }
        (⟨some "a", some "A-1", "p"⟩ :: []) =
      { issue := ⟨some "a", some "A-1", "p"⟩, comments := [],
        total_comments := 0, error := some "timeout" } ::
        linProcessTickets
          { listFetch := .ok [],
            commentPages := fun _ => [Except.error "timeout"] } [] :=
  C1_error_isolation.1
    { listFetch := .ok [], commentPages := fun _ => [Except.error "timeout"] }
    ⟨some "a", some "A-1", "p"⟩ [] "a" "timeout" rfl rfl

/-- C2 counterexample: a Pylon run in which the primary search raises
and every fallback chunk fetch raises as well.  The claim demands the
run to propagate the error and produce no ExtractionResult; instead
each chunk error is caught by the per-chunk `except` and the run
completes, returning a result dict with zero tickets. -/
theorem C2_counterexample :
    py_fetch_all_closed_tickets
      { primary := .error "primary down"
        fetchChunk := fun _ _ => .error "chunks down"
        details := fun _ => .ok "D"
        messages := fun _ => .ok (200, [])
        parse := fun _ => none }
      100 60 100 =
      { metadata := { total_tickets := 0, date_range := (40, 100),
                      fetched_at := 100, days_back := 60, source := none }
        tickets := [] } := by decide

/-- C2 amended: when the primary strategy raises, the run continues
with the fallback chunked scan and always completes with a result built
from it; an error inside any fallback chunk is caught and that chunk
skipped, so a fallback whose every chunk raises contributes no issues
instead of aborting the run. -/
theorem C2_fallback_not_fatal :
    (∀ (O : PyOracles) (now days_back fetched_at : Int) (msg : String),
      O.primary = .error msg →
      py_fetch_all_closed_tickets O now days_back fetched_at =
        { metadata :=
            { total_tickets :=
                (pyProcessTickets O
                  (chunkScan O.fetchChunk (now - days_back) now)).length
              date_range := (now - days_back, now)
              fetched_at := fetched_at
              days_back := days_back
              source := none }
          tickets :=
            pyProcessTickets O
              (chunkScan O.fetchChunk (now - days_back) now) }) ∧
    (∀ (f : Int → Int → Except String (List PyIssue)) (s e : Int),
      (∀ a b, ∃ msg, f a b = .error msg) → chunkScan f s e = []) := by
  constructor
  · intro O now days_back fetched_at msg hp
    simp [py_fetch_all_closed_tickets, hp]
  · intro f s e h
    have hc : ∀ b : Int × Int, chunkContribution f b = [] := by
      intro b
      obtain ⟨m, hm⟩ := h b.1 b.2
      simp [chunkContribution, hm]
    rw [chunkScan, chunkScanGo_eq_flatMap]
    induction chunkBoundsGo s (e - s).toNat e with
    | nil => rfl
    | cons b t ih => simp [hc, ih]

/-- Witness for the amended C2 at a concrete input: a run whose primary
search raises falls through to the (here all-failing) chunked scan and
still returns a result with zero tickets. -/
theorem C2_fallback_not_fatal_witness :
    py_fetch_all_closed_tickets
      { primary := .error "p"
        fetchChunk := fun _ _ => .error "c"
        details := fun _ => .ok ""
        messages := fun _ => .ok (200, [])
        parse := fun _ => none }
      50 40 50 =
      { metadata :=
          { total_tickets :=
              (pyProcessTickets
                { primary := .error "p"
                  fetchChunk := fun _ _ => .error "c"
                  details := fun _ => .ok ""
                  messages := fun _ => .ok (200, [])
                  parse := fun _ => none }
                (chunkScan (fun _ _ => .error "c") (50 - 40) 50)).length
            date_range := (50 - 40, 50)
            fetched_at := 50
            days_back := 40
            source := none }
        tickets :=
          pyProcessTickets
            { primary := .error "p"
              fetchChunk := fun _ _ => .error "c"
              details := fun _ => .ok ""
              messages := fun _ => .ok (200, [])
              parse := fun _ => none }
            (chunkScan (fun _ _ => .error "c") (50 - 40) 50) } :=
  C2_fallback_not_fatal.1
    { primary := .error "p", fetchChunk := fun _ _ => .error "c",
      details := fun _ => .ok "", messages := fun _ => .ok (200, []),
      parse := fun _ => none }
    50 40 50 "p" rfl

/-- C3 counterexample: a Pylon run over one in-window closed ticket
whose messages endpoint answers with status 500 and a non-empty body.
`get_issue_messages` downgrades the non-200 response to `[]` with only a
printed warning, so the output record holds an empty, silently truncated
message list with count 0 and no failure marker — exactly what the
claim forbids. -/
theorem C3_counterexample :
    (py_fetch_all_closed_tickets
      { primary := .ok [⟨some "t1", some "closed", some "d", none, none⟩]
        fetchChunk := fun _ _ => .error "unused"
        details := fun _ => .ok "D"
        messages := fun _ => .ok (500, ["lost message"])
        parse := fun _ => some 50 }
      100 60 100).tickets =
      [{ issue_summary := ⟨some "t1", some "closed", some "d", none, none⟩
         issue_details := "D"
         messages := []
         total_messages := 0
         error := none }] := by decide

/-- C3 amended: in the Linear exporter the property holds — an unmarked
record carries exactly what the nested comments fetch returned, a
well-formed fully-paginated response sequence yields the concatenation
of all its pages, and a raising fetch yields the marker (per the C1
analysis); in the Pylon exporter it fails: a non-200 messages response
is silently mapped to the empty list, producing an unmarked record with
an emptied conversation. -/
theorem C3_no_silent_truncation :
    (∀ (O : LinOracles) (issue : LinIssue) (rest : List LinIssue)
      (iid : String) (cs : List LinComment),
      idTruthy issue.id = some iid →
      fetch_issue_comments (O.commentPages iid) [] = .ok cs →
      linProcessTickets O (issue :: rest) =
        { issue := issue, comments := cs, total_comments := cs.length,
          error := none } :: linProcessTickets O rest) ∧
    (∀ (ps : List LinCommentsResp) (lastPage : LinCommentsResp),
      (∀ p ∈ ps, p.issuePresent = true ∧ p.nodes ≠ [] ∧
        (p.hasNextPage && strTruthy p.endCursor) = true) →
      lastPage.issuePresent = true → lastPage.nodes ≠ [] →
      (lastPage.hasNextPage && strTruthy lastPage.endCursor) = false →
      fetch_issue_comments ((ps ++ [lastPage]).map Except.ok) [] =
        .ok (((ps ++ [lastPage]).map LinCommentsResp.nodes).flatten)) ∧
    (∀ (status : Nat) (data : List PyMsg), status ≠ 200 →
      get_issue_messages (.ok (status, data)) = .ok []) := by
  refine ⟨?_, ?_, ?_⟩
  · intro O issue rest iid cs hid hf
    simp [linProcessTickets, hid, hf]
  · intro ps lastPage h h1 h2 h3
    rw [List.map_append, fetch_issue_comments_consume ps _ [] h]
    simp only [List.map_cons, List.map_nil, fetch_issue_comments]
    rw [if_neg (by simp [h1]), if_neg (by simpa using h2)]
    split <;> simp
  · intro status data h
    simp [get_issue_messages, h]

/-- Witness for the amended C3 at a concrete input: two well-formed
pages of one comment each are returned in full and in order. -/
theorem C3_no_silent_truncation_witness :
    fetch_issue_comments
      (List.map Except.ok
        (([⟨true, ["c1"], true, some "k"⟩] : List LinCommentsResp) ++
          ([⟨true, ["c2"], false, none⟩] : List LinCommentsResp))) [] =
      .ok (List.flatten (List.map LinCommentsResp.nodes
        (([⟨true, ["c1"], true, some "k"⟩] : List LinCommentsResp) ++
          ([⟨true, ["c2"], false, none⟩] : List LinCommentsResp)))) :=
  C3_no_silent_truncation.2.1
    ([⟨true, ["c1"], true, some "k"⟩] : List LinCommentsResp)
    (⟨true, ["c2"], false, none⟩ : LinCommentsResp)
    (by decide) rfl (by decide) rfl

/-- C5 counterexample: a fallback chunk returns a closed issue carrying
no date field at all.  The chunk loop keeps it (its filter tests only
`state == "closed"`), yet the run's own date-and-state filter
(`keepIssue`, the only client-side date filter in the code) rejects it —
so retention is NOT equivalent to passing a state-and-date filter. -/
theorem C5_counterexample :
    chunkScan (fun _ _ => .ok [⟨some "x", some "closed", none, none, none⟩])
        0 30 =
      [⟨some "x", some "closed", none, none, none⟩] ∧
    keepIssue (fun _ => none) 0 30 "closed"
        ⟨some "x", some "closed", none, none, none⟩ = false := by
  constructor <;> decide

/-- C5 amended: the fallback partitions the window into abutting chunks
of at most 30 days covering the whole window and fetches each chunk; a
fetched record is kept iff its chunk fetch succeeded and its state
equals `closed` — the date bound is delegated to the per-chunk request
range, with no client-side date-field filter in this path. -/
theorem C5_chunked_scan (f : Int → Int → Except String (List PyIssue))
    (s e : Int) :
    (∀ b ∈ chunkBounds s e, s ≤ b.1 ∧ b.1 < b.2 ∧ b.2 ≤ e ∧ b.2 - b.1 ≤ 30) ∧
    (∀ t, s ≤ t → t ≤ e → s < e →
      ∃ b ∈ chunkBounds s e, b.1 ≤ t ∧ t ≤ b.2) ∧
    List.Chain' (fun b c => c.2 = b.1) (chunkBounds s e) ∧
    chunkScan f s e = (chunkBounds s e).flatMap (chunkContribution f) ∧
    (∀ (l : List PyIssue) (i : PyIssue) (b : Int × Int), f b.1 b.2 = .ok l →
      (i ∈ chunkContribution f b ↔ i ∈ l ∧ i.state = some "closed")) := by
  refine ⟨chunkBoundsGo_mem s _ e,
    fun t ht1 ht2 hse => chunkBoundsGo_cover s _ e t (le_refl _) ht1 ht2 hse,
    chunkBoundsGo_chain s _ e,
    chunkScanGo_eq_flatMap f s _ e, ?_⟩
  intro l i b hb
  simp [chunkContribution, hb, List.mem_filter]

/-- Witness for the amended C5 at a concrete input: the 45-day window
`[0, 45]` splits into the abutting chunks `(15, 45)` and `(0, 15)`, and
a closed issue among the fetched chunk data is kept. -/
theorem C5_chunked_scan_witness :
    ((15 : Int), (45 : Int)) ∈ chunkBounds 0 45 ∧
    ((⟨some "x", some "closed", none, none, none⟩ : PyIssue) ∈
      chunkContribution
        (fun _ _ => .ok [⟨some "x", some "closed", none, none, none⟩,
          ⟨some "y", some "open", none, none, none⟩]) (0, 15) ↔
      (⟨some "x", some "closed", none, none, none⟩ : PyIssue) ∈
        [(⟨some "x", some "closed", none, none, none⟩ : PyIssue),
         ⟨some "y", some "open", none, none, none⟩] ∧
      (⟨some "x", some "closed", none, none, none⟩ : PyIssue).state =
        some "closed") :=
  ⟨by decide,
    (C5_chunked_scan
      (fun _ _ => .ok [⟨some "x", some "closed", none, none, none⟩,
        ⟨some "y", some "open", none, none, none⟩]) 0 45).2.2.2.2
      [⟨some "x", some "closed", none, none, none⟩,
       ⟨some "y", some "open", none, none, none⟩]
      ⟨some "x", some "closed", none, none, none⟩ (0, 15) rfl⟩

/-- C9 counterexample: a completed Pylon run whose metadata dict — built
with exactly the keys `total_tickets`, `date_range`, `fetched_at`,
`days_back` — carries no `source` identifier, contradicting the claim
that every completed run's metadata contains one. -/
theorem C9_counterexample :
    (py_fetch_all_closed_tickets
      { primary := .ok []
        fetchChunk := fun _ _ => .error "x"
        details := fun _ => .ok ""
        messages := fun _ => .ok (200, [])
        parse := fun _ => none }
      100 60 100).metadata.source = none := by decide

/-- C9 amended: both orchestrators emit metadata with `total_tickets`
equal to the length of the tickets sequence, the resolved date range,
the fetch instant and `days_back`; the Linear metadata additionally
carries the source identifier `"linear"`, while the Pylon metadata has
no source entry. -/
theorem C9_metadata_contract :
    (∀ (O : PyOracles) (now db fa : Int),
      (py_fetch_all_closed_tickets O now db fa).metadata.total_tickets =
        (py_fetch_all_closed_tickets O now db fa).tickets.length ∧
      (py_fetch_all_closed_tickets O now db fa).metadata.date_range =
        (now - db, now) ∧
      (py_fetch_all_closed_tickets O now db fa).metadata.fetched_at = fa ∧
      (py_fetch_all_closed_tickets O now db fa).metadata.days_back = db ∧
      (py_fetch_all_closed_tickets O now db fa).metadata.source = none) ∧
    (∀ (O : LinOracles) (now db fa : Int) (r : LinResult),
      lin_fetch_all_closed_tickets O now db fa = .ok r →
      r.metadata.total_tickets = r.tickets.length ∧
      r.metadata.date_range = (now - db, now) ∧
      r.metadata.fetched_at = fa ∧
      r.metadata.days_back = db ∧
      r.metadata.source = some "linear") := by
  constructor
  · intro O now db fa
    cases hp : O.primary <;>
      simp [py_fetch_all_closed_tickets, hp]
  · intro O now db fa r h
    cases hl : O.listFetch with
    | error e => rw [lin_fetch_all_closed_tickets, hl] at h; cases h
    | ok all_issues =>
      rw [lin_fetch_all_closed_tickets, hl] at h
      cases h
      simp

/-- Witness for C9 as amended at a concrete input: a Linear run over an
empty issue list yields metadata with `total_tickets = 0` and source
`"linear"`. -/
theorem C9_metadata_contract_witness :
    ({ metadata :=
        { total_tickets := 0, date_range := (40, 100), fetched_at := 100,
          days_back := 60, source := some "linear" }
       tickets := [] } : LinResult).metadata.total_tickets =
      ({ metadata :=
          { total_tickets := 0, date_range := (40, 100), fetched_at := 100,
            days_back := 60, source := some "linear" }
         tickets := [] } : LinResult).tickets.length ∧
    ({ metadata :=
        { total_tickets := 0, date_range := (40, 100), fetched_at := 100,
          days_back := 60, source := some "linear" }
       tickets := [] } : LinResult).metadata.source = some "linear" :=
  have h := (C9_metadata_contract.2
    { listFetch := .ok [], commentPages := fun _ => [] } 100 60 100
    { metadata :=
        { total_tickets := 0, date_range := (40, 100), fetched_at := 100,
          days_back := 60, source := some "linear" }
      tickets := [] } rfl)
  ⟨h.1, h.2.2.2.2⟩

end DataExporters
